import Mathlib

/-
Verification development for the H&M data-assistant chatbot.

Shallow embedding of the query-resolution workflow: the step handlers of
`app/nodes.py`, the graph wiring of `app/factory.py`, the helpers of
`app/utils.py`, and the session-facing layer of `app.py`.

External collaborators (the OpenAI language model, the BigQuery client,
pandas rendering, Python's `json.loads`) are modelled as oracle parameters:
each call the Python code makes to one of them becomes a field of the
`Oracle` structure, taking exactly the arguments the source passes.
Machine integers are modelled as `Nat` (the only integer in play,
`retry_count`, starts at 0 and is only ever incremented).
-/

namespace Chatbot

/-- Decoded JSON object, as the workflow consumes it: the code only ever
reads string-valued fields (`intent`, `rephrased`, `analysis`, `action`,
`suggested_sql`), so a decoded object is an association list of string
keys to string values (Python dicts have unique keys; lookups take the
first match). -/
abbrev JDict := List (String × String)

/-- Python `dict.get(k)`: the first value bound to key `k`, if any. -/
def jfind (d : JDict) (k : String) : Option String :=
  (d.find? (fun p => p.1 = k)).map Prod.snd

/-- Python `dict.get(k, dflt)`. -/
def jget (d : JDict) (k : String) (dflt : String) : String :=
  (jfind d k).getD dflt

/-- Whitespace as Python's `str.strip` removes it (the characters the
workflow's replies can contain; Python also strips `\x0b`/`\x0c`). -/
def py_ws (c : Char) : Bool :=
  c = ' ' || c = '\t' || c = '\n' || c = '\r'

/-- Python's `str.strip()` on the character list. -/
def py_strip (cs : List Char) : List Char :=
  ((cs.dropWhile py_ws).reverse.dropWhile py_ws).reverse

/-- Python's `str.strip()`. -/
def py_strip_string (s : String) : String :=
  String.mk (py_strip s.toList)

/-- Index of the first occurrence of `c` (the list's length when absent):
Python's `str.find` under a presence guard. -/
def idx_of (c : Char) : List Char → Nat
  | [] => 0
  | x :: rest => if x = c then 0 else idx_of c rest + 1

/-- The substring handed to `json.loads` by `parse_json_response`
(`app/utils.py`): Python's `response[response.find("{") : response.rfind("}") + 1]`,
i.e. from the first opening brace to the last closing brace inclusive
(`rfind` is the first find in the reversed list). When the last `\x7d`
precedes the first `\x7b` the slice is empty, exactly as in Python. -/
def json_candidate (response : String) : String :=
  let cs := response.toList
  String.mk ((cs.take (cs.length - idx_of '}' cs.reverse)).drop (idx_of '{' cs))

/-- `parse_json_response` of `app/utils.py`. `loads` models Python's
`json.loads` restricted to flat string-valued objects: `none` models a
`JSONDecodeError`. The function strips the reply, and if both an opening
and a closing brace occur it decodes the slice from the first `\x7b` to the
last `\x7d`; on decode failure it returns the sentinel carrying the raw
(stripped) reply; with no brace pair it returns the no-JSON sentinel.
The source's final generic `except` branch is unreachable here because
`loads` is total. -/
def parse_json_response (loads : String → Option JDict) (response0 : String) : JDict :=
  let response := py_strip_string response0
  if response.toList.contains '{' && response.toList.contains '}' then
    match loads (json_candidate response) with
    | some d => d
    | none => [("error", "Invalid JSON"), ("raw_response", response)]
  else
    [("error", "No JSON found in response")]

/-- Scan for the closing brace matching the first opening brace, tracking
nesting depth; returns the balanced prefix if one exists. Auxiliary for
the spec-side reading of response parsing. -/
def scanObj : List Char → Nat → List Char → Option (List Char)
  | [], _, _ => none
  | c :: rest, d, acc =>
    let acc' := c :: acc
    let d' := if c = '{' then d + 1 else if c = '}' then d - 1 else d
    if c = '}' && d' = 0 then some acc'.reverse else scanObj rest d' acc'

/-- Modelled from the spec: "the first top-level brace-delimited object in
the model's reply" — the substring from the first opening brace to its
matching (balance-0) closing brace. -/
def first_top_level_object (s : String) : Option String :=
  match scanObj (s.toList.dropWhile (fun c => c ≠ '{')) 0 [] with
  | some o => some (String.mk o)
  | none => none

/-- Modelled from the spec: "Response parsing locates the first top-level
brace-delimited object in the model's reply and attempts structured
decoding; on decode failure it returns a sentinel object carrying the raw
text and an error tag". Spec-side counterpart of `parse_json_response`,
for comparison. -/
def parse_json_spec (loads : String → Option JDict) (response : String) : JDict :=
  match first_top_level_object response with
  | some j =>
    match loads j with
    | some d => d
    | none => [("error", "Invalid JSON"), ("raw_response", response)]
  | none => [("error", "No JSON found in response")]

/-- `exponential_backoff` of `app/utils.py`, returning the computed delay
`min(2 ** retry_count, 16)` (the source sleeps for this many seconds; the
pure embedding returns the duration). -/
def exponential_backoff (retry_count : Nat) : Nat :=
  min (2 ^ retry_count) 16

/-- One history exchange, Python's `{'user': ..., 'bot': ...}`. -/
structure ChatMsg where
  user : String
  bot : String
deriving DecidableEq, Repr

/-- One feedback entry of `DataAssistant.feedback_and_comments[user_id]`
(`app.py`); `timestamp` carries the rendered `datetime.now().isoformat()`,
supplied by the caller in the embedding. -/
structure FeedbackEntry where
  query : String
  feedback : String
  comments : String
  timestamp : String
deriving DecidableEq, Repr

/-- `DataAssistant.record_feedback` (`app.py`), acting on one user's entry
list (`self.feedback_and_comments[user_id]`, created empty on first use):
unconditionally appends a fresh entry; Python's `feedback_type or ...`
default fires on the empty string. Blob persistence is a logged side
effect and is dropped. -/
def record_feedback (now : String) (store : List FeedbackEntry)
    (user_query feedback_type : String) : List FeedbackEntry :=
  store ++ [{ query := user_query,
              feedback := if feedback_type = "" then
                  "user did not provide feedback like or dislike"
                else feedback_type,
              comments := "user did not provide comments",
              timestamp := now }]

/-- The `for ... break` loop of `record_comment`: update the comment of the
first entry whose `query` matches, leaving the rest untouched. -/
def set_comment_first : List FeedbackEntry → String → String → List FeedbackEntry
  | [], _, _ => []
  | e :: rest, q, c =>
    if e.query = q then { e with comments := c } :: rest
    else e :: set_comment_first rest q c

/-- `DataAssistant.record_comment` (`app.py`), acting on one user's entry
list: updates the comment of the first entry for the same query text, or
appends a new entry when none matches (the loop's `else` clause);
`comment or ...` defaults on the empty string. -/
def record_comment (now : String) (store : List FeedbackEntry)
    (user_query comment : String) : List FeedbackEntry :=
  let c := if comment = "" then "user did not provide comments" else comment
  if store.any (fun e => e.query = user_query) then
    set_comment_first store user_query c
  else
    store ++ [{ query := user_query,
                feedback := "user did not provide feedback like or dislike",
                comments := c,
                timestamp := now }]

/-- The `AgentState` TypedDict of `app/nodes.py`. `create_initial_state`
(`app.py`) populates every key before the graph runs and the graph merges
whole states, so every key is always present; the embedding therefore uses
total fields, and Python's `state.get(k, dflt)` on these always-present
keys reads the field directly (the `dflt` would fire only on key absence,
never on an empty value). -/
structure AgentState where
  user_prompt : String
  intent : String
  rephrased_prompt : String
  relevant_schemas : String
  sql_query : String
  results : String
  final_response : String
  error_msg : String
  analysis : String
  analysis_action : String
  retry_count : Nat
  messages : List ChatMsg
deriving DecidableEq, Repr

/-- External collaborators, one field per call site in `app/nodes.py`:
each `llm.invoke(prompt).content` becomes a function of the data the
source interpolates into that prompt, returning either the reply content
or (`.error`) the text of the raised exception; `exec_query` is
`bq_client.execute_query` (a successful call returns a DataFrame, never
`None`, so success is just the row list); `render` is
`DataFrame.to_markdown(index=False)`; `schemas` is the blob-loaded
`SCHEMAS` text; `loads` is `json.loads` as in `parse_json_response`.
`Row` abstracts one DataFrame row. -/
structure Oracle (Row : Type) where
  loads : String → Option JDict
  classify : String → String → Except String String
  general : String → String → Except String String
  gen_sql : String → String → Except String String
  err_analysis : String → String → Except String String
  exec_query : String → Except String (List Row)
  render : List Row → String
  schemas : String

/-- The history text each prompt builder interpolates:
`"\n".join(f"User: \x7bm['user']\x7d\nBot: \x7bm['bot']\x7d" for m in messages)`. -/
def history_str (ms : List ChatMsg) : String :=
  String.intercalate "\n" (ms.map (fun m => "User: " ++ m.user ++ "\nBot: " ++ m.bot))

/-- Does `needle` occur as a contiguous block somewhere in the list? -/
def sub_occurs (needle : List Char) : List Char → Bool
  | [] => needle.isPrefixOf []
  | c :: rest => needle.isPrefixOf (c :: rest) || sub_occurs needle rest

/-- Python's substring test `needle in hay`. -/
def str_contains_sub (needle hay : String) : Bool :=
  sub_occurs needle.toList hay.toList

variable {Row : Type}

/-- `classify_intent` of `app/nodes.py`: ask the model, parse its JSON
reply, take `intent` (default `"general"`) and `rephrased` (default: the
raw prompt). The `except` branch (any model / prompt-template failure)
defaults intent to `"general"` and echoes the raw prompt. -/
def classify_intent (o : Oracle Row) (s : AgentState) : AgentState :=
  match o.classify (history_str s.messages) s.user_prompt with
  | .error _ => { s with intent := "general", rephrased_prompt := s.user_prompt }
  | .ok content =>
    let parsed := parse_json_response o.loads content
    { s with intent := jget parsed "intent" "general",
             rephrased_prompt := jget parsed "rephrased" s.user_prompt }

/-- `general_response` of `app/nodes.py`: the model's reply becomes the
final response; on failure, a canned greeting when the lowercased input
contains "hi", "hello" or "hey", else a canned capability statement. -/
def general_response (o : Oracle Row) (s : AgentState) : AgentState :=
  match o.general (history_str s.messages) s.user_prompt with
  | .ok content => { s with final_response := content }
  | .error _ =>
    if ["hi", "hello", "hey"].any (fun g => str_contains_sub g s.user_prompt.toLower) then
      { s with final_response := "Hello! I'm your H&M data assistant. How can I help you with incident or problem data today?" }
    else
      { s with final_response := "I can help you query and analyze your H&M incident and problem data. What would you like to know?" }

/-- `retrieve_schemas` of `app/nodes.py`: attaches the blob-loaded schema
text. The source's `except` branch is unreachable (assigning a module
constant cannot raise). -/
def retrieve_schemas (o : Oracle Row) (s : AgentState) : AgentState :=
  { s with relevant_schemas := o.schemas }

/-- Python's `str.split(sep)` for a non-empty separator: greedy
left-to-right scan on non-overlapping occurrences, keeping empty pieces.
The fuel argument (at least the input length plus one) makes the
recursion structural; each step consumes at least one character, so the
fuel never runs out when `py_split` supplies it. -/
def split_fuel (sep : List Char) : Nat → List Char → List Char → List (List Char)
  | 0, cs, acc => [acc.reverse ++ cs]
  | _ + 1, [], acc => [acc.reverse]
  | n + 1, c :: rest, acc =>
    if sep.isPrefixOf (c :: rest) then
      acc.reverse :: split_fuel sep n ((c :: rest).drop sep.length) []
    else
      split_fuel sep n rest (c :: acc)

/-- Python's `str.split(sep)` on character lists (`sep` non-empty). -/
def py_split (sep cs : List Char) : List (List Char) :=
  split_fuel sep (cs.length + 1) cs []

/-- The code-fence cleanup of `generate_sql`: strip, then
`split("```sql")[1].split("```")[0].strip()` when "```sql" occurs, else
`split("```")[1].strip()` when "```" occurs. The `in` guards make
index 1 exist, so the `getD` defaults never fire. -/
def clean_sql (response : String) : String :=
  let q := py_strip response.toList
  if sub_occurs "```sql".toList q then
    String.mk (py_strip ((py_split "```".toList
      ((py_split "```sql".toList q).getD 1 [])).headD []))
  else if sub_occurs "```".toList q then
    String.mk (py_strip ((py_split "```".toList q).getD 1 []))
  else
    String.mk q

/-- `generate_sql` of `app/nodes.py`: ask the model for SQL, strip code
fences, store it. On failure set `error_msg` and leave `sql_query`
untouched (the Python `except` path assigns only `error_msg`). -/
def generate_sql (o : Oracle Row) (s : AgentState) : AgentState :=
  match o.gen_sql s.rephrased_prompt s.relevant_schemas with
  | .error e => { s with error_msg := "Failed to generate SQL query: " ++ e }
  | .ok content => { s with sql_query := clean_sql content }

/-- `execute_sql` of `app/nodes.py`. Empty `sql_query` (Python falsy) sets
`error_msg` without touching `retry_count`. A raising execution stores the
exception text and increments `retry_count`. Success with rows renders at
most 100 of them (with the row-count note beyond 100), builds
`final_response` from the original `user_prompt`, and clears `error_msg`;
success with no rows yields the no-data response. -/
def execute_sql (o : Oracle Row) (s : AgentState) : AgentState :=
  if s.sql_query = "" then
    { s with error_msg := "No SQL query to execute" }
  else
    match o.exec_query s.sql_query with
    | .error e => { s with error_msg := e, retry_count := s.retry_count + 1 }
    | .ok rows =>
      if rows.length ≠ 0 then
        if rows.length > 100 then
          let res := o.render (rows.take 100) ++ "\n\n(Showing first 100 rows of "
            ++ toString rows.length ++ " total)"
          { s with results := res,
                   final_response := "Results for '" ++ s.user_prompt ++ "':\n" ++ res,
                   error_msg := "" }
        else
          let res := o.render rows
          { s with results := res,
                   final_response := "Results for '" ++ s.user_prompt ++ "':\n" ++ res,
                   error_msg := "" }
      else
        { s with results := "No data found",
                 final_response := "No data found matching your query.",
                 error_msg := "" }

/-- `error_analyzer` of `app/nodes.py`, with `max_retries` from
configuration (`config.max_retries`, default 3). Empty `error_msg`:
action `end`. At or above the ceiling: action `fail` with the
attempt-count message — before any model call, so the result does not
depend on the oracle there. Otherwise the model diagnoses; `retry`
installs `suggested_sql` when present (and sleeps for the backoff delay,
a pure duration here); unknown actions map to `fail`. A model/template
failure maps to `fail` with the generic message. -/
def error_analyzer (max_retries : Nat) (o : Oracle Row) (s : AgentState) : AgentState :=
  if s.error_msg = "" then
    { s with analysis_action := "end" }
  else if s.retry_count ≥ max_retries then
    { s with analysis_action := "fail",
             final_response := "Failed after " ++ toString max_retries
               ++ " attempts: " ++ s.error_msg }
  else
    match o.err_analysis s.error_msg s.sql_query with
    | .error _ =>
      { s with analysis_action := "fail",
               final_response := "An unexpected error occurred: " ++ s.error_msg }
    | .ok content =>
      let parsed := parse_json_response o.loads content
      let s1 := { s with analysis := jget parsed "analysis" "" }
      let action := jget parsed "action" "fail"
      if action = "retry" then
        match jfind parsed "suggested_sql" with
        | some q => { s1 with analysis_action := "retry", sql_query := q }
        | none => { s1 with analysis_action := "retry" }
      else if action = "rephrase" then
        { s1 with analysis_action := "rephrase" }
      else if action = "ask_user" then
        { s1 with analysis_action := "ask_user",
                  final_response := "Error: " ++ s.error_msg
                    ++ ". Could you please clarify your question?" }
      else
        { s1 with analysis_action := "fail",
                  final_response := "Unable to process your request: " ++ s.error_msg }

/-- `update_history` of `app/nodes.py`: appends the finished exchange.
All keys are present on states the workflow builds (see `AgentState`), so
the `"messages" not in state` guard is a no-op, `state["user_prompt"]`
cannot raise, and the `"No response generated"` default of
`state.get("final_response", ...)` never fires — the field's value,
empty or not, is appended. -/
def update_history (s : AgentState) : AgentState :=
  { s with messages := s.messages ++ [{ user := s.user_prompt, bot := s.final_response }] }

/-- The nodes registered by `AgentFactory.create_nodes` (`app/factory.py`). -/
inductive Node where
  | classify
  | general
  | retrieve
  | generate_sql
  | execute
  | error_analyzer
  | update_history
deriving DecidableEq, Repr

/-- The conditional edge out of `classify`: langgraph looks the value of
`s["intent"]` up in `\x7b"greeting": "general", "general": "general",
"data_query": "retrieve"\x7d` and raises on any other label (the mapping has
no default branch). -/
def route_classify (s : AgentState) : Except String Node :=
  if s.intent = "greeting" then .ok .general
  else if s.intent = "general" then .ok .general
  else if s.intent = "data_query" then .ok .retrieve
  else .error "unknown branch from classify"

/-- The conditional edge out of `error_analyzer`: langgraph looks
`s.get("analysis_action", "end")` up in `\x7b"retry": "generate_sql",
"rephrase": "generate_sql", "fail": "update_history", "ask_user":
"update_history", "end": "update_history"\x7d` and raises otherwise (the
absence default `"end"` never fires on workflow-built states; an empty
`analysis_action` would be an unknown branch). -/
def route_error_analyzer (s : AgentState) : Except String Node :=
  if s.analysis_action = "retry" then .ok .generate_sql
  else if s.analysis_action = "rephrase" then .ok .generate_sql
  else if s.analysis_action = "fail" then .ok .update_history
  else if s.analysis_action = "ask_user" then .ok .update_history
  else if s.analysis_action = "end" then .ok .update_history
  else .error "unknown branch from error_analyzer"

/-- One super-step of the compiled graph of
`AgentFactory.build_graph_with_nodes`: run the node, then follow its
outgoing (possibly conditional) edge; `none` means the `update_history →
END` edge was taken. -/
def step (max_retries : Nat) (o : Oracle Row) :
    Node → AgentState → Except String (Option Node × AgentState)
  | .classify, s =>
    let s' := classify_intent o s
    (route_classify s').map (fun n => (some n, s'))
  | .general, s => .ok (some .update_history, general_response o s)
  | .retrieve, s => .ok (some .generate_sql, retrieve_schemas o s)
  | .generate_sql, s => .ok (some .execute, generate_sql o s)
  | .execute, s => .ok (some .error_analyzer, execute_sql o s)
  | .error_analyzer, s =>
    let s' := error_analyzer max_retries o s
    (route_error_analyzer s').map (fun n => (some n, s'))
  | .update_history, s => .ok (none, update_history s)

/-- Fuel-bounded execution from a node: langgraph raises
`GraphRecursionError` when the step budget runs out. -/
def run_nodes (max_retries : Nat) (o : Oracle Row) :
    Nat → Node → AgentState → Except String AgentState
  | 0, _, _ => .error "GraphRecursionError"
  | fuel + 1, n, s =>
    match step max_retries o n s with
    | .error e => .error e
    | .ok (none, s') => .ok s'
    | .ok (some n', s') => run_nodes max_retries o fuel n' s'

/-- langgraph's default recursion limit, the step budget of one
`app.invoke` call. -/
def recursion_limit : Nat := 25

/-- `self.app.invoke(state)` in `DataAssistant.process_query`: run the
compiled graph from the entry point `classify`. -/
def app_invoke (max_retries : Nat) (o : Oracle Row) (s : AgentState) :
    Except String AgentState :=
  run_nodes max_retries o recursion_limit .classify s

/-- `DataAssistant.create_initial_state` (`app.py`): every field blank,
`retry_count` 0, and the last three loaded (question, answer) exchanges
as the `messages` window (`conversations[-3:]`); the adapter-loaded
conversation list is a parameter here. -/
def create_initial_state (user_prompt : String)
    (conversations : List (String × String)) : AgentState :=
  { user_prompt := user_prompt
    intent := ""
    rephrased_prompt := ""
    relevant_schemas := ""
    sql_query := ""
    results := ""
    final_response := ""
    error_msg := ""
    analysis := ""
    analysis_action := ""
    retry_count := 0
    messages := (conversations.drop (conversations.length - 3)).map
      (fun p => { user := p.1, bot := p.2 }) }

/-- The dictionary `DataAssistant.process_query` returns: `intent` is only
present on the success path (`none` models its absence). -/
structure QueryResult where
  user_input : String
  generated_sql_query : String
  model_response : String
  intent : Option String
  success : Bool
deriving DecidableEq, Repr

/-- `DataAssistant.process_query` (`app.py`): build the initial state, run
the graph, and package the outcome. On success the `result.get` defaults
(`"Sorry, I couldn't process your request."`, `"No SQL generated"`,
`"unknown"`) never fire because the keys are always present; any exception
out of `invoke` (unknown branch, recursion limit) is caught and mapped to
the fallback dictionary. In-memory/blob persistence of the exchange is a
side effect dropped by the embedding (its failures are caught in the
source and do not change the returned value). -/
def process_query (max_retries : Nat) (o : Oracle Row) (user_input : String)
    (conversations : List (String × String)) : QueryResult :=
  match app_invoke max_retries o (create_initial_state user_input conversations) with
  | .ok r =>
    { user_input := user_input
      generated_sql_query := r.sql_query
      model_response := r.final_response
      intent := some r.intent
      success := true }
  | .error _ =>
    { user_input := user_input
      generated_sql_query := "Error occurred"
      model_response := "I encountered an error while processing your request. Please try again."
      intent := none
      success := false }

/-! Helper lemmas. -/

/-- A string with a non-empty left part is non-empty. -/
lemma str_append_ne_empty (a b : String) (ha : a ≠ "") : a ++ b ≠ "" := by
  intro h
  apply ha
  have hd := congrArg String.data h
  simp only [String.data_append] at hd
  rcases List.append_eq_nil.mp hd with ⟨h1, _⟩
  cases a
  simp_all

/-- A stub oracle for concrete scenarios; individual witnesses and
counterexamples override the fields they exercise. -/
def stub_oracle : Oracle Unit :=
  { loads := fun _ => none
    classify := fun _ _ => .error "stub"
    general := fun _ _ => .error "stub"
    gen_sql := fun _ _ => .error "stub"
    err_analysis := fun _ _ => .error "stub"
    exec_query := fun _ => .error "stub"
    render := fun _ => ""
    schemas := "" }

/-- `error_analyzer` never changes the retry counter, in any branch. -/
lemma error_analyzer_retry_count (mr : Nat) (o : Oracle Row) (s : AgentState) :
    (error_analyzer mr o s).retry_count = s.retry_count := by
  unfold error_analyzer
  split
  · rfl
  split
  · rfl
  split
  · rfl
  · dsimp only
    split
    · split <;> rfl
    · split
      · rfl
      split <;> rfl

/-- `generate_sql` never changes the retry counter. -/
lemma generate_sql_retry_count (o : Oracle Row) (s : AgentState) :
    (generate_sql o s).retry_count = s.retry_count := by
  unfold generate_sql
  split <;> rfl

/-- `generate_sql` leaves `sql_query` untouched when the model call fails. -/
lemma generate_sql_error_keeps_sql (o : Oracle Row) (s : AgentState) (e : String)
    (h : o.gen_sql s.rephrased_prompt s.relevant_schemas = .error e) :
    (generate_sql o s).sql_query = s.sql_query := by
  unfold generate_sql
  rw [h]

/-- A failing execution of a non-empty query stores the failure text and
increments the retry counter. -/
lemma execute_sql_error (o : Oracle Row) (s : AgentState) (e : String)
    (hq : s.sql_query ≠ "") (hx : o.exec_query s.sql_query = .error e) :
    execute_sql o s = { s with error_msg := e, retry_count := s.retry_count + 1 } := by
  unfold execute_sql
  rw [if_neg hq, hx]

/-! C5 — backoff policy. -/

/-- C5: the backoff delay is `min(2 ^ retry_count, 16)`: 1, 2, 4, 8, 16
time units for counts 0–4, and 16 for every larger count. -/
theorem backoff_delay_values (n : Nat) (h : 5 ≤ n) :
    exponential_backoff 0 = 1 ∧ exponential_backoff 1 = 2 ∧
    exponential_backoff 2 = 4 ∧ exponential_backoff 3 = 8 ∧
    exponential_backoff 4 = 16 ∧ exponential_backoff n = 16 ∧
    ∀ m, exponential_backoff m = min (2 ^ m) 16 := by
  refine ⟨rfl, rfl, rfl, rfl, rfl, ?_, fun m => rfl⟩
  have h16 : (16 : Nat) ≤ 2 ^ n := by
    calc (16 : Nat) = 2 ^ 4 := by norm_num
    _ ≤ 2 ^ n := Nat.pow_le_pow_right (by norm_num) (by omega)
  simp [exponential_backoff, Nat.min_eq_right h16]

/-- Witness for C5 at `retry_count = 9`. -/
theorem backoff_delay_values_witness : exponential_backoff 9 = 16 :=
  (backoff_delay_values 9 (by norm_num)).2.2.2.2.2.1

/-! C2 — the retry ceiling is absolute. -/

/-- C2: with a non-empty `error_msg` and `retry_count` at or above the
configured maximum, `error_analyzer` forces `analysis_action = "fail"`
and a final response reporting the configured attempt count and the last
error; the result is the same for every oracle, i.e. the model is not
consulted. -/
theorem ceiling_forces_fail (mr : Nat) (o o' : Oracle Row) (s : AgentState)
    (he : s.error_msg ≠ "") (hge : mr ≤ s.retry_count) :
    error_analyzer mr o s =
      { s with analysis_action := "fail",
               final_response := "Failed after " ++ toString mr
                 ++ " attempts: " ++ s.error_msg } ∧
    error_analyzer mr o s = error_analyzer mr o' s := by
  have hall : ∀ oo : Oracle Row, error_analyzer mr oo s =
      { s with analysis_action := "fail",
               final_response := "Failed after " ++ toString mr
                 ++ " attempts: " ++ s.error_msg } := by
    intro oo
    unfold error_analyzer
    rw [if_neg he, if_pos hge]
  exact ⟨hall o, (hall o).trans (hall o').symm⟩

/-- Witness for C2: three failed attempts against a ceiling of 3, with a
model that would recommend a retry. -/
theorem ceiling_forces_fail_witness :
    error_analyzer 3
      { stub_oracle with err_analysis := fun _ _ => .ok "\x7b\"action\": \"retry\"\x7d" }
      { create_initial_state "q" [] with error_msg := "boom", retry_count := 3 } =
    { create_initial_state "q" [] with
        error_msg := "boom", retry_count := 3, analysis_action := "fail",
        final_response := "Failed after 3 attempts: boom" } := by
  have h := ceiling_forces_fail 3
    { stub_oracle with err_analysis := fun _ _ => .ok "\x7b\"action\": \"retry\"\x7d" }
    stub_oracle
    { create_initial_state "q" [] with error_msg := "boom", retry_count := 3 }
    (by decide) (by decide)
  exact h.1.trans (by decide)

/-! C6 — zero-row success. -/

/-- C6: a successful execution returning zero rows sets `final_response`
to exactly the no-data message and clears `error_msg`. -/
theorem execute_sql_no_rows (o : Oracle Row) (s : AgentState)
    (hq : s.sql_query ≠ "") (hx : o.exec_query s.sql_query = .ok []) :
    execute_sql o s =
      { s with results := "No data found",
               final_response := "No data found matching your query.",
               error_msg := "" } := by
  unfold execute_sql
  rw [if_neg hq, hx]
  rfl

/-- Witness for C6 on a concrete state and oracle. -/
theorem execute_sql_no_rows_witness :
    (execute_sql { stub_oracle with exec_query := fun _ => .ok [] }
      { create_initial_state "list incidents" [] with sql_query := "SELECT 1" }).final_response =
    "No data found matching your query." := by
  have h := execute_sql_no_rows { stub_oracle with exec_query := fun _ => .ok [] }
    { create_initial_state "list incidents" [] with sql_query := "SELECT 1" }
    (by decide) rfl
  rw [h]

/-! C4 — truncation of large results. -/

/-- C4: a successful execution with more than 100 rows renders only the
first 100 rows, appends the note echoing the exact true total, builds
`final_response` as `Results for '<prompt>':` followed by the results, and
clears `error_msg`. -/
theorem execute_sql_truncates (o : Oracle Row) (s : AgentState) (rows : List Row)
    (hq : s.sql_query ≠ "") (hx : o.exec_query s.sql_query = .ok rows)
    (hlen : 100 < rows.length) :
    (execute_sql o s).results = o.render (rows.take 100)
      ++ "\n\n(Showing first 100 rows of " ++ toString rows.length ++ " total)" ∧
    (execute_sql o s).final_response =
      "Results for '" ++ s.user_prompt ++ "':\n" ++ (execute_sql o s).results ∧
    (execute_sql o s).error_msg = "" ∧
    ∃ t, (execute_sql o s).final_response = ("Results for '" ++ s.user_prompt ++ "':") ++ t := by
  have h0 : rows.length ≠ 0 := by omega
  unfold execute_sql
  rw [if_neg hq, hx]
  dsimp only
  rw [if_pos h0, if_pos hlen]
  refine ⟨rfl, rfl, rfl, ?_⟩
  refine ⟨"\n" ++ (o.render (rows.take 100) ++ "\n\n(Showing first 100 rows of "
    ++ toString rows.length ++ " total)"), ?_⟩
  simp only [show ("':\n" : String) = "':" ++ "\n" from rfl, String.append_assoc]

set_option maxRecDepth 8192 in
/-- Witness for C4: 150 rows are truncated to 100 with the note echoing
150. -/
theorem execute_sql_truncates_witness :
    (execute_sql
      { stub_oracle with exec_query := fun _ => .ok (List.replicate 150 ()),
                         render := fun l => toString l.length }
      { create_initial_state "list incidents" [] with sql_query := "SELECT 1" }).results =
    "100\n\n(Showing first 100 rows of 150 total)" := by
  have h := execute_sql_truncates
    { stub_oracle with exec_query := fun _ => .ok (List.replicate 150 ()),
                       render := fun l => toString l.length }
    { create_initial_state "list incidents" [] with sql_query := "SELECT 1" }
    (List.replicate 150 ()) (by decide) rfl (by simp)
  rw [h.1]
  rfl

/-! C8 — history append. -/

/-- C8 counterexample: on a workflow state whose `final_response` is the
empty string (as `create_initial_state` builds, the key being present),
`update_history` appends the empty string as the bot turn — Python's
`state.get("final_response", "No response generated")` defaults only on
key absence, so no default text is substituted for an empty response. -/
theorem update_history_empty_response_cex :
    (update_history (create_initial_state "q" [])).messages =
      [{ user := "q", bot := "" }] ∧
    ({ user := "q", bot := "" } : ChatMsg) ≠ { user := "q", bot := "No response generated" } := by
  exact ⟨rfl, by decide⟩

/-- C8 as amended: `update_history` appends exactly one entry
`\x7buser: user_prompt, bot: final_response\x7d` to the messages sequence (the
bot field is the final response verbatim, empty or not) and changes
nothing else; being a total function it never raises. -/
theorem update_history_appends (s : AgentState) :
    (update_history s).messages =
      s.messages ++ [{ user := s.user_prompt, bot := s.final_response }] ∧
    (update_history s).user_prompt = s.user_prompt ∧
    (update_history s).final_response = s.final_response ∧
    (update_history s).retry_count = s.retry_count ∧
    (update_history s).sql_query = s.sql_query :=
  ⟨rfl, rfl, rfl, rfl, rfl⟩

/-! C9 — feedback recording. -/

/-- Updating the first matching comment preserves the number of entries. -/
lemma set_comment_first_length (l : List FeedbackEntry) (q c : String) :
    (set_comment_first l q c).length = l.length := by
  induction l with
  | nil => rfl
  | cons e rest ih =>
    unfold set_comment_first
    split <;> simp [ih]

/-- Updating the first matching comment preserves every entry's query
text. -/
lemma set_comment_first_queries (l : List FeedbackEntry) (q c : String) :
    (set_comment_first l q c).map FeedbackEntry.query = l.map FeedbackEntry.query := by
  induction l with
  | nil => rfl
  | cons e rest ih =>
    unfold set_comment_first
    split <;> simp [ih]

/-- The first entry matching the query ends up with the new comment and
is otherwise unchanged. -/
lemma set_comment_first_find (l : List FeedbackEntry) (q c : String) :
    (set_comment_first l q c).find? (fun e => e.query = q) =
      (l.find? (fun e => e.query = q)).map (fun e => { e with comments := c }) := by
  induction l with
  | nil => rfl
  | cons e rest ih =>
    unfold set_comment_first
    by_cases h : e.query = q
    · simp [h, List.find?]
    · simp [h, List.find?, ih]

/-- C9 counterexample: recording feedback twice for the same query text
appends two entries keyed by that query — `record_feedback` never updates
an existing entry. -/
theorem record_feedback_duplicates_cex :
    (record_feedback "t2" (record_feedback "t1" [] "q" "like") "q" "dislike").length = 2 ∧
    (record_feedback "t2" (record_feedback "t1" [] "q" "like") "q" "dislike").map
      FeedbackEntry.query = ["q", "q"] := by
  exact ⟨rfl, rfl⟩

/-- C9 as amended: deduplication by query text is done by
`record_comment`, not `record_feedback`: when an entry for the same query
text already exists, `record_comment` attaches the comment to the first
such entry in place — same number of entries, same query keys, the first
matching entry now carrying the comment — whereas `record_feedback`
always appends a fresh entry. -/
theorem record_comment_updates_in_place (now q c : String) (store : List FeedbackEntry)
    (h : store.any (fun e => e.query = q) = true) :
    (record_comment now store q c).length = store.length ∧
    (record_comment now store q c).map FeedbackEntry.query =
      store.map FeedbackEntry.query ∧
    (record_comment now store q c).find? (fun e => e.query = q) =
      (store.find? (fun e => e.query = q)).map
        (fun e => { e with
          comments := if c = "" then "user did not provide comments" else c }) ∧
    ∀ f, (record_feedback now store q f).length = store.length + 1 := by
  unfold record_comment
  rw [if_pos h]
  refine ⟨set_comment_first_length store q _, set_comment_first_queries store q _,
    set_comment_first_find store q _, fun f => ?_⟩
  simp [record_feedback]

/-- Witness for C9 as amended: a second comment for query `"q"` lands in
the existing entry. -/
theorem record_comment_updates_in_place_witness :
    (record_comment "t2"
      [{ query := "q", feedback := "like",
         comments := "user did not provide comments", timestamp := "t1" }]
      "q" "great").length = 1 :=
  (record_comment_updates_in_place "t2" "q" "great"
    [{ query := "q", feedback := "like",
       comments := "user did not provide comments", timestamp := "t1" }]
    (by decide)).1

/-! C7 — response parsing. -/

/-- A concrete decoder agreeing with Python's `json.loads` on the strings
the C7 counterexample exercises: the single flat object decodes, every
other string raises `JSONDecodeError` — in particular the concatenation
of two objects with text between them is not valid JSON. -/
def loadsC7 : String → Option JDict := fun s =>
  if s = "\x7b\"a\": 1\x7d" then some [("a", "1")] else none

/-- The C7 counterexample reply: two top-level brace-delimited objects
with text between them. -/
def replyC7 : String := "\x7b\"a\": 1\x7d x \x7b\"b\": 2\x7d"

/-- C7 counterexample: on a reply holding two brace-delimited objects,
`parse_json_response` does not decode the first top-level object — it
slices from the first opening brace to the last closing brace, decoding
fails, and the sentinel is returned; the spec-side reading
(`parse_json_spec`) would have decoded the first object. -/
theorem parse_json_first_object_cex :
    parse_json_response loadsC7 replyC7 =
      [("error", "Invalid JSON"), ("raw_response", replyC7)] ∧
    first_top_level_object replyC7 = some "\x7b\"a\": 1\x7d" ∧
    parse_json_spec loadsC7 replyC7 = [("a", "1")] ∧
    parse_json_response loadsC7 replyC7 ≠ parse_json_spec loadsC7 replyC7 := by
  refine ⟨rfl, rfl, rfl, by decide⟩

/-- C7 as amended: `parse_json_response` is a total function (never
raises) returning a dictionary; when the stripped reply contains both an
opening and a closing brace it decodes the slice from the first opening
brace to the last closing brace (`json_candidate`), returning the decoded
dictionary on success and, on decode failure, the sentinel carrying the
raw stripped reply under `raw_response` together with the error tag;
with no brace pair it returns the no-JSON sentinel. -/
theorem parse_json_slice_behavior (loads : String → Option JDict) (r : String)
    (h : ((py_strip_string r).toList.contains '{'
      && (py_strip_string r).toList.contains '}') = true) :
    (∀ d, loads (json_candidate (py_strip_string r)) = some d →
      parse_json_response loads r = d) ∧
    (loads (json_candidate (py_strip_string r)) = none →
      parse_json_response loads r =
        [("error", "Invalid JSON"), ("raw_response", py_strip_string r)]) := by
  unfold parse_json_response
  rw [if_pos h]
  constructor
  · intro d hd
    rw [hd]
  · intro hn
    rw [hn]

/-- Witness for C7 as amended: a fenced reply around a single object
decodes to that object's dictionary. -/
theorem parse_json_slice_behavior_witness :
    parse_json_response loadsC7 " \x7b\"a\": 1\x7d " = [("a", "1")] :=
  (parse_json_slice_behavior loadsC7 " \x7b\"a\": 1\x7d " (by decide)).1
    [("a", "1")] (by decide)

/-! C1 — progress of the retry loop. -/

/-- An oracle under which SQL generation always fails and error diagnosis
always recommends a retry: the worst case for loop progress. -/
def o_stuck : Oracle Unit :=
  { stub_oracle with
      loads := fun t =>
        if t = "\x7b\"intent\": \"data_query\"\x7d" then some [("intent", "data_query")]
        else if t = "\x7b\"action\": \"retry\"\x7d" then some [("action", "retry")]
        else none
      classify := fun _ _ => .ok "\x7b\"intent\": \"data_query\"\x7d"
      gen_sql := fun _ _ => .error "llm down"
      err_analysis := fun _ _ => .ok "\x7b\"action\": \"retry\"\x7d" }

/-- The state entering the first `generate_sql` pass under `o_stuck`. -/
def s_stuck : AgentState :=
  { create_initial_state "count incidents" [] with
      intent := "data_query", rephrased_prompt := "count incidents",
      relevant_schemas := "S" }

set_option maxRecDepth 100000 in
/-- C1 counterexample: a passage around the `generate_sql → execute →
error_analyzer` cycle that re-enters `generate_sql` without increasing
`retry_count`. With `sql_query` empty (generation failed before any SQL
was produced), `execute` takes the "No SQL query to execute" branch,
which does not increment `retry_count`; the diagnosis still says retry,
so the cycle repeats with the counter stuck at 0, and the whole run ends
with the engine's recursion-limit error, not the retry ceiling. -/
theorem retry_cycle_no_progress_cex :
    route_error_analyzer
      (error_analyzer 3 o_stuck (execute_sql o_stuck (generate_sql o_stuck s_stuck))) =
      .ok Node.generate_sql ∧
    (error_analyzer 3 o_stuck
      (execute_sql o_stuck (generate_sql o_stuck s_stuck))).retry_count =
      s_stuck.retry_count ∧
    app_invoke 3 o_stuck (create_initial_state "count incidents" []) =
      .error "GraphRecursionError" :=
  ⟨rfl, rfl, rfl⟩

/-- C1 as amended: the retry-ceiling check is evaluated before the model
is invoked for diagnosis — at or above the ceiling the analyzer's result
is a fixed failure record, the same for every oracle — and every passage
around the `generate_sql → execute → error_analyzer` cycle in which
`execute` actually attempts a non-empty SQL query and fails strictly
increases `retry_count` by one. (A passage whose `sql_query` is empty
re-enters `generate_sql` without increasing the counter; termination
then rests on the engine's recursion limit, as the counterexample
shows.) -/
theorem retry_cycle_progress (mr : Nat) (o : Oracle Row) (s : AgentState) (e : String)
    (hq : (generate_sql o s).sql_query ≠ "")
    (hx : o.exec_query (generate_sql o s).sql_query = .error e) :
    (error_analyzer mr o (execute_sql o (generate_sql o s))).retry_count =
      s.retry_count + 1 ∧
    ∀ s' : AgentState, s'.error_msg ≠ "" → mr ≤ s'.retry_count →
      ∀ o' : Oracle Row,
        error_analyzer mr o' s' =
          { s' with analysis_action := "fail",
                    final_response := "Failed after " ++ toString mr
                      ++ " attempts: " ++ s'.error_msg } := by
  constructor
  · rw [error_analyzer_retry_count, execute_sql_error o (generate_sql o s) e hq hx]
    simp [generate_sql_retry_count]
  · intro s' h1 h2 o'
    exact (ceiling_forces_fail mr o' o' s' h1 h2).1

/-- Witness for C1 as amended: one failing execution of a freshly
generated non-empty query takes the counter from 0 to 1. -/
theorem retry_cycle_progress_witness :
    (error_analyzer 3
      { stub_oracle with gen_sql := fun _ _ => .ok "SELECT 1",
                         exec_query := fun _ => .error "boom" }
      (execute_sql
        { stub_oracle with gen_sql := fun _ _ => .ok "SELECT 1",
                           exec_query := fun _ => .error "boom" }
        (generate_sql
          { stub_oracle with gen_sql := fun _ _ => .ok "SELECT 1",
                             exec_query := fun _ => .error "boom" }
          (create_initial_state "q" [])))).retry_count = 1 :=
  (retry_cycle_progress 3
    { stub_oracle with gen_sql := fun _ _ => .ok "SELECT 1",
                       exec_query := fun _ => .error "boom" }
    (create_initial_state "q" []) "boom" (by decide) rfl).1

/-! C10 — the suggested-SQL window. -/

/-- C10: when diagnosis decides `retry` and the parsed reply carries a
`suggested_sql`, the analyzer installs that SQL and routes back to
`generate_sql`; a successful generation pass then overwrites `sql_query`
with the cleaned fresh reply before `execute` runs, while a failing
generation pass leaves the suggested SQL in place — so the suggestion
survives to execution only when the generation model call fails. -/
theorem suggested_sql_window (mr : Nat) (o : Oracle Row) (s : AgentState)
    (resp q : String)
    (herr : s.error_msg ≠ "") (hlt : s.retry_count < mr)
    (hok : o.err_analysis s.error_msg s.sql_query = .ok resp)
    (haction : jget (parse_json_response o.loads resp) "action" "fail" = "retry")
    (hsugg : jfind (parse_json_response o.loads resp) "suggested_sql" = some q) :
    (error_analyzer mr o s).analysis_action = "retry" ∧
    (error_analyzer mr o s).sql_query = q ∧
    route_error_analyzer (error_analyzer mr o s) = .ok Node.generate_sql ∧
    (∀ c, o.gen_sql (error_analyzer mr o s).rephrased_prompt
        (error_analyzer mr o s).relevant_schemas = .ok c →
      (generate_sql o (error_analyzer mr o s)).sql_query = clean_sql c) ∧
    ∀ e, o.gen_sql (error_analyzer mr o s).rephrased_prompt
        (error_analyzer mr o s).relevant_schemas = .error e →
      (generate_sql o (error_analyzer mr o s)).sql_query = q := by
  have hEA : error_analyzer mr o s =
      { s with analysis := jget (parse_json_response o.loads resp) "analysis" "",
               analysis_action := "retry", sql_query := q } := by
    unfold error_analyzer
    rw [if_neg herr, if_neg (show ¬ s.retry_count ≥ mr by omega), hok]
    dsimp only
    rw [if_pos haction, hsugg]
  refine ⟨by rw [hEA], by rw [hEA], by rw [hEA]; rfl, ?_, ?_⟩
  · intro c hc
    unfold generate_sql
    rw [hc]
  · intro e he
    unfold generate_sql
    rw [he, hEA]

/-- Witness for C10: a retry with suggested SQL installs it. -/
theorem suggested_sql_window_witness :
    (error_analyzer 3
      { stub_oracle with
          loads := fun t =>
            if t = "\x7b\"action\": \"retry\", \"suggested_sql\": \"SELECT 2\"\x7d" then
              some [("action", "retry"), ("suggested_sql", "SELECT 2")]
            else none
          err_analysis := fun _ _ =>
            .ok "\x7b\"action\": \"retry\", \"suggested_sql\": \"SELECT 2\"\x7d" }
      { create_initial_state "fix it" [] with
          error_msg := "boom", sql_query := "SELECT 1" }).sql_query = "SELECT 2" :=
  (suggested_sql_window 3
    { stub_oracle with
        loads := fun t =>
          if t = "\x7b\"action\": \"retry\", \"suggested_sql\": \"SELECT 2\"\x7d" then
            some [("action", "retry"), ("suggested_sql", "SELECT 2")]
          else none
        err_analysis := fun _ _ =>
          .ok "\x7b\"action\": \"retry\", \"suggested_sql\": \"SELECT 2\"\x7d" }
    { create_initial_state "fix it" [] with
        error_msg := "boom", sql_query := "SELECT 1" }
    "\x7b\"action\": \"retry\", \"suggested_sql\": \"SELECT 2\"\x7d" "SELECT 2"
    (by decide) (by decide) rfl (by decide) (by decide)).2.1

/-! C3 — the turn-level invocation. -/

/-- Invariant carried through a graph run: entering `update_history` the
final response is already non-empty, and entering `error_analyzer` it is
non-empty whenever no error is pending (so the `end` route cannot surface
an empty answer); everywhere else nothing is needed. -/
def node_inv : Node → AgentState → Prop
  | .update_history, s => s.final_response ≠ ""
  | .error_analyzer, s => s.error_msg = "" → s.final_response ≠ ""
  | _, _ => True

/-- `classify` only ever routes to `general` or `retrieve`. -/
lemma route_classify_cases (s : AgentState) (n' : Node)
    (h : route_classify s = .ok n') : n' = Node.general ∨ n' = Node.retrieve := by
  unfold route_classify at h
  split at h
  · exact Or.inl (Except.ok.inj h).symm
  split at h
  · exact Or.inl (Except.ok.inj h).symm
  split at h
  · exact Or.inr (Except.ok.inj h).symm
  · exact Except.noConfusion h

/-- When the model's general-branch replies are non-empty, the general
step always leaves a non-empty final response (its fallback texts are
non-empty literals). -/
lemma general_response_nonempty (o : Oracle Row) (s : AgentState)
    (HG : ∀ h p c, o.general h p = .ok c → c ≠ "") :
    (general_response o s).final_response ≠ "" := by
  have h1 : ("Hello! I'm your H&M data assistant. How can I help you with incident or problem data today?" : String) ≠ "" := by decide
  have h2 : ("I can help you query and analyze your H&M incident and problem data. What would you like to know?" : String) ≠ "" := by decide
  unfold general_response
  split
  next c heq => exact HG _ _ c heq
  next e heq =>
    split
    · exact h1
    · exact h2

/-- When execution failures carry non-empty messages, the execute step
preserves the analyzer invariant: a cleared `error_msg` comes with a
non-empty final response. -/
lemma execute_sql_inv (o : Oracle Row) (s : AgentState)
    (HE : ∀ q e, o.exec_query q = .error e → e ≠ "") :
    (execute_sql o s).error_msg = "" → (execute_sql o s).final_response ≠ "" := by
  have h1 : ¬ (("No SQL query to execute" : String) = "") := by decide
  have h2 : ("Results for '" : String) ≠ "" := by decide
  have h3 : ("No data found matching your query." : String) ≠ "" := by decide
  unfold execute_sql
  split
  · intro h
    exact absurd h h1
  · split
    next e heq =>
      intro h
      exact absurd h (HE _ _ heq)
    next rows heq =>
      split
      · split
        · intro _
          exact str_append_ne_empty _ _ (str_append_ne_empty _ _
            (str_append_ne_empty _ _ h2))
        · intro _
          exact str_append_ne_empty _ _ (str_append_ne_empty _ _
            (str_append_ne_empty _ _ h2))
      · intro _
        exact h3

/-- States the analyzer labelled `retry` or `rephrase` route to
`generate_sql`. -/
lemma route_to_generate (s : AgentState)
    (h : s.analysis_action = "retry" ∨ s.analysis_action = "rephrase") :
    route_error_analyzer s = .ok Node.generate_sql := by
  unfold route_error_analyzer
  rcases h with h | h <;> simp only [h] <;> rfl

/-- States the analyzer labelled `fail`, `ask_user` or `end` route to
`update_history`. -/
lemma route_to_history (s : AgentState)
    (h : s.analysis_action = "fail" ∨ s.analysis_action = "ask_user" ∨
      s.analysis_action = "end") :
    route_error_analyzer s = .ok Node.update_history := by
  unfold route_error_analyzer
  rcases h with h | h | h <;> simp only [h] <;> rfl

/-- The analyzer preserves the invariant along whichever edge it takes:
retry/rephrase re-enter `generate_sql` (nothing needed there), and every
route into `update_history` carries a non-empty final response. -/
lemma error_analyzer_inv (mr : Nat) (o : Oracle Row) (s : AgentState)
    (hinv : s.error_msg = "" → s.final_response ≠ "") :
    ∀ n', route_error_analyzer (error_analyzer mr o s) = .ok n' →
      node_inv n' (error_analyzer mr o s) := by
  have hfail : ("Failed after " : String) ≠ "" := by decide
  have hunex : ("An unexpected error occurred: " : String) ≠ "" := by decide
  have herrp : ("Error: " : String) ≠ "" := by decide
  have hunab : ("Unable to process your request: " : String) ≠ "" := by decide
  intro n' h
  obtain ⟨t, hEA⟩ : ∃ t, error_analyzer mr o s = t := ⟨_, rfl⟩
  rw [hEA] at h ⊢
  unfold error_analyzer at hEA
  split at hEA
  next hemp =>
    subst hEA
    rw [route_to_history _ (Or.inr (Or.inr rfl))] at h
    rw [← Except.ok.inj h]
    exact hinv hemp
  split at hEA
  next =>
    subst hEA
    rw [route_to_history _ (Or.inl rfl)] at h
    rw [← Except.ok.inj h]
    exact str_append_ne_empty _ _ (str_append_ne_empty _ _
      (str_append_ne_empty _ _ hfail))
  split at hEA
  next =>
    subst hEA
    rw [route_to_history _ (Or.inl rfl)] at h
    rw [← Except.ok.inj h]
    exact str_append_ne_empty _ _ hunex
  next content heq =>
    dsimp only at hEA
    split at hEA
    · split at hEA
      · subst hEA
        rw [route_to_generate _ (Or.inl rfl)] at h
        rw [← Except.ok.inj h]
        exact trivial
      · subst hEA
        rw [route_to_generate _ (Or.inl rfl)] at h
        rw [← Except.ok.inj h]
        exact trivial
    · split at hEA
      · subst hEA
        rw [route_to_generate _ (Or.inr rfl)] at h
        rw [← Except.ok.inj h]
        exact trivial
      split at hEA
      · subst hEA
        rw [route_to_history _ (Or.inr (Or.inl rfl))] at h
        rw [← Except.ok.inj h]
        exact str_append_ne_empty _ _ (str_append_ne_empty _ _ herrp)
      · subst hEA
        rw [route_to_history _ (Or.inl rfl)] at h
        rw [← Except.ok.inj h]
        exact str_append_ne_empty _ _ hunab

/-- One super-step preserves the invariant, and a terminating super-step
hands back a non-empty final response. -/
lemma step_inv (mr : Nat) (o : Oracle Row)
    (HG : ∀ h p c, o.general h p = .ok c → c ≠ "")
    (HE : ∀ q e, o.exec_query q = .error e → e ≠ "")
    (n : Node) (s : AgentState) (hinv : node_inv n s) :
    (∀ n' s', step mr o n s = .ok (some n', s') → node_inv n' s') ∧
    (∀ s', step mr o n s = .ok (none, s') → s'.final_response ≠ "") := by
  cases n with
  | classify =>
    constructor
    · intro n' s' h
      unfold step at h
      dsimp only at h
      cases hr : route_classify (classify_intent o s) with
      | error e => rw [hr] at h; exact Except.noConfusion h
      | ok n0 =>
        rw [hr] at h
        have h2 := Except.ok.inj h
        have hn : n0 = n' := congrArg Prod.fst h2 |> Option.some.inj
        rcases route_classify_cases _ _ hr with hg | hg <;>
          · rw [hn] at hg
            rw [hg]
            exact trivial
    · intro s' h
      unfold step at h
      dsimp only at h
      cases hr : route_classify (classify_intent o s) with
      | error e => rw [hr] at h; exact Except.noConfusion h
      | ok n0 =>
        rw [hr] at h
        exact Option.noConfusion (congrArg Prod.fst (Except.ok.inj h))
  | general =>
    constructor
    · intro n' s' h
      have h2 := Except.ok.inj h
      have hn : Node.update_history = n' := congrArg Prod.fst h2 |> Option.some.inj
      have hs : general_response o s = s' := congrArg Prod.snd h2
      rw [← hn, ← hs]
      exact general_response_nonempty o s HG
    · intro s' h
      exact Option.noConfusion (congrArg Prod.fst (Except.ok.inj h))
  | retrieve =>
    constructor
    · intro n' s' h
      have hn : Node.generate_sql = n' :=
        congrArg Prod.fst (Except.ok.inj h) |> Option.some.inj
      rw [← hn]
      exact trivial
    · intro s' h
      exact Option.noConfusion (congrArg Prod.fst (Except.ok.inj h))
  | generate_sql =>
    constructor
    · intro n' s' h
      have hn : Node.execute = n' :=
        congrArg Prod.fst (Except.ok.inj h) |> Option.some.inj
      rw [← hn]
      exact trivial
    · intro s' h
      exact Option.noConfusion (congrArg Prod.fst (Except.ok.inj h))
  | execute =>
    constructor
    · intro n' s' h
      have h2 := Except.ok.inj h
      have hn : Node.error_analyzer = n' := congrArg Prod.fst h2 |> Option.some.inj
      have hs : execute_sql o s = s' := congrArg Prod.snd h2
      rw [← hn, ← hs]
      exact execute_sql_inv o s HE
    · intro s' h
      exact Option.noConfusion (congrArg Prod.fst (Except.ok.inj h))
  | error_analyzer =>
    constructor
    · intro n' s' h
      unfold step at h
      dsimp only at h
      cases hr : route_error_analyzer (error_analyzer mr o s) with
      | error e => rw [hr] at h; exact Except.noConfusion h
      | ok n0 =>
        rw [hr] at h
        have h2 := Except.ok.inj h
        have hn : n0 = n' := congrArg Prod.fst h2 |> Option.some.inj
        have hs : error_analyzer mr o s = s' := congrArg Prod.snd h2
        rw [← hn, ← hs]
        exact error_analyzer_inv mr o s hinv n0 hr
    · intro s' h
      unfold step at h
      dsimp only at h
      cases hr : route_error_analyzer (error_analyzer mr o s) with
      | error e => rw [hr] at h; exact Except.noConfusion h
      | ok n0 =>
        rw [hr] at h
        exact Option.noConfusion (congrArg Prod.fst (Except.ok.inj h))
  | update_history =>
    constructor
    · intro n' s' h
      exact Option.noConfusion (congrArg Prod.fst (Except.ok.inj h))
    · intro s' h
      have hs : update_history s = s' := congrArg Prod.snd (Except.ok.inj h)
      rw [← hs]
      exact hinv

/-- A run that terminates normally from an invariant-satisfying
configuration ends with a non-empty final response. -/
lemma run_nodes_ok_final (mr : Nat) (o : Oracle Row)
    (HG : ∀ h p c, o.general h p = .ok c → c ≠ "")
    (HE : ∀ q e, o.exec_query q = .error e → e ≠ "") :
    ∀ fuel (n : Node) (s : AgentState), node_inv n s →
      ∀ r, run_nodes mr o fuel n s = .ok r → r.final_response ≠ "" := by
  intro fuel
  induction fuel with
  | zero =>
    intro n s _ r h
    exact Except.noConfusion h
  | succ k ih =>
    intro n s hinv r h
    unfold run_nodes at h
    cases hs : step mr o n s with
    | error e =>
      rw [hs] at h
      exact Except.noConfusion h
    | ok pr =>
      rw [hs] at h
      obtain ⟨on', s'⟩ := pr
      cases on' with
      | none =>
        rw [← Except.ok.inj h]
        exact (step_inv mr o HG HE n s hinv).2 s' hs
      | some n' =>
        exact ih n' s' ((step_inv mr o HG HE n s hinv).1 n' s' hs) r h

/-- C3 as amended: `process_query` is a total function of the oracle and
input (it never raises: unknown intent labels and the recursion limit
surface as caught engine errors mapped to the fallback answer), and its
final answer field is non-empty provided the model's general-branch
replies are non-empty and execution failures carry non-empty messages
(as the BigQuery adapter guarantees by prefixing every failure). Without
the first proviso the counterexample applies: an empty general reply is
surfaced verbatim. -/
theorem process_query_nonempty (mr : Nat) (o : Oracle Row)
    (HG : ∀ h p c, o.general h p = .ok c → c ≠ "")
    (HE : ∀ q e, o.exec_query q = .error e → e ≠ "")
    (input : String) (conversations : List (String × String)) :
    (process_query mr o input conversations).model_response ≠ "" := by
  have hfb : ("I encountered an error while processing your request. Please try again." : String) ≠ "" := by decide
  unfold process_query
  cases hr : app_invoke mr o (create_initial_state input conversations) with
  | error e =>
    exact hfb
  | ok r =>
    dsimp only
    exact run_nodes_ok_final mr o HG HE recursion_limit Node.classify
      (create_initial_state input conversations) trivial r hr

/-- Witness for C3 as amended: a run whose model and adapter satisfy the
provisos returns a non-empty answer. -/
theorem process_query_nonempty_witness :
    (process_query 3
      { stub_oracle with general := fun _ _ => .ok "hello!",
                         exec_query := fun _ => .error "boom" }
      "hi" []).model_response ≠ "" :=
  process_query_nonempty 3
    { stub_oracle with general := fun _ _ => .ok "hello!",
                       exec_query := fun _ => .error "boom" }
    (fun _ _ c hc => by
      rw [← Except.ok.inj hc]
      exact by decide)
    (fun _ e he => by
      rw [← Except.error.inj he]
      exact by decide)
    "hi" []

/-- An oracle whose classification says `general` and whose general reply
is the empty string. -/
def o_empty_reply : Oracle Unit :=
  { stub_oracle with
      loads := fun t =>
        if t = "\x7b\"intent\": \"general\"\x7d" then some [("intent", "general")] else none
      classify := fun _ _ => .ok "\x7b\"intent\": \"general\"\x7d"
      general := fun _ _ => .ok "" }

set_option maxRecDepth 100000 in
/-- C3 counterexample: when the model's general-branch reply is the empty
string, the turn completes successfully with an empty final answer — the
claim's unconditional non-emptiness fails. -/
theorem process_query_empty_response_cex :
    (process_query 3 o_empty_reply "hello" []).model_response = "" ∧
    (process_query 3 o_empty_reply "hello" []).success = true :=
  ⟨rfl, rfl⟩

end Chatbot
